import Mathlib

/-!
Verification development for the Weibo crawler (src/mcp_server_weibo).

The crawler issues HTTP GET requests and parses JSON responses.  We embed the
three public operations of `WeiboCrawler` (weibo.py) and the pydantic models
(schemas.py) shallowly:

* `Json` models a parsed JSON document (Python value after `json.loads`);
  numeric leaves are modelled as integers and `Json.null` doubles as the
  Python value `None`.  Boolean and floating-point leaves, which no claim
  touches, are outside the modelled value domain.
* `Resp` models the outcome of one `client.get(...)` call followed by
  `response.json()`: a transport failure (`httpx.HTTPError` raised by the
  get), a body that is not valid JSON (`response.json()` raises
  `json.JSONDecodeError`, which is NOT an `httpx.HTTPError`), or a parsed
  document.
* `PyError` enumerates the Python exception classes the embedded code can
  raise.  Only `PyError.httpError` is caught by the `except httpx.HTTPError`
  handlers in weibo.py; every other error propagates to the caller.
* Fallible Python expressions become functions into `Except PyError`.
* The pagination loop of `extract_weibo_feeds` is embedded with explicit
  fuel; `none` means the given fuel was exhausted before the loop finished.

The upstream service is an oracle supplied as a parameter: one `Resp` for the
single profile request of an operation, and for feed traversal a function
from (page-fetch index, cursor) to `Resp`.  The page oracle is implicitly
scoped to the resolved container id, which is constant for one traversal.
-/

/-- A parsed JSON document / Python value.  `null` also stands for Python
`None` (JSON `null` parses to `None`). -/
inductive Json where
  | null : Json
  | int : Int → Json
  | str : String → Json
  | arr : List Json → Json
  | obj : List (String × Json) → Json

/-- Python exception classes relevant to weibo.py.  `httpError` covers
`httpx.HTTPError` and its subclasses; `validationError` is pydantic
ValidationError raised by `PagedFeeds(...)` / `SearchResult(...)` when a
field value does not match its annotation. -/
inductive PyError where
  | httpError : PyError
  | jsonDecodeError : PyError
  | keyError : String → PyError
  | typeError : PyError
  | attributeError : PyError
  | indexError : PyError
  | validationError : PyError
deriving DecidableEq

/-- Outcome of `client.get(url)` plus `response.json()`: transport failure,
body that is not JSON, or a parsed document. -/
inductive Resp where
  | transportErr : Resp
  | badJson : Resp
  | ok : Json → Resp

/-- Dictionary lookup.  Python dicts built by `json.loads` keep the last
binding of a duplicated key, hence the right-to-left fold. -/
def lookupKey (fs : List (String × Json)) (k : String) : Option Json :=
  fs.foldl (fun acc p => if p.1 = k then some p.2 else acc) none

/-- Python `x[k]` with a string key: dict lookup (KeyError when missing);
anything that is not a dict raises TypeError. -/
def pyIndex (j : Json) (k : String) : Except PyError Json :=
  match j with
  | Json.obj fs =>
    match lookupKey fs k with
    | some v => Except.ok v
    | none => Except.error (PyError.keyError k)
  | _ => Except.error PyError.typeError

/-- Python `x[i]` with a nonnegative integer index. -/
def pyIndexNat (j : Json) (i : Nat) : Except PyError Json :=
  match j with
  | Json.arr es =>
    match es.get? i with
    | some v => Except.ok v
    | none => Except.error PyError.indexError
  | Json.obj _ => Except.error (PyError.keyError (toString i))
  | Json.str s =>
    match s.data.get? i with
    | some c => Except.ok (Json.str (String.singleton c))
    | none => Except.error PyError.indexError
  | _ => Except.error PyError.typeError

/-- Python `x.get(k, d)`: only dicts have `.get`; anything else raises
AttributeError. -/
def pyGet (j : Json) (k : String) (d : Json) : Except PyError Json :=
  match j with
  | Json.obj fs => Except.ok ((lookupKey fs k).getD d)
  | _ => Except.error PyError.attributeError

/-- Python `len(x)`: defined for lists, dicts and strings; TypeError
otherwise. -/
def pyLen (j : Json) : Except PyError Nat :=
  match j with
  | Json.arr es => Except.ok es.length
  | Json.obj fs => Except.ok fs.length
  | Json.str s => Except.ok s.length
  | _ => Except.error PyError.typeError

/-- Python `for x in v`: lists yield elements, dicts yield their keys,
strings yield one-character strings; integers and `None` are not iterable. -/
def pyIterate (j : Json) : Except PyError (List Json) :=
  match j with
  | Json.arr es => Except.ok es
  | Json.obj fs => Except.ok (fs.map (fun p => Json.str p.1))
  | Json.str s => Except.ok (s.data.map (fun c => Json.str (String.singleton c)))
  | _ => Except.error PyError.typeError

/-- Python truthiness of a value. -/
def pyTruthy (j : Json) : Bool :=
  match j with
  | Json.null => false
  | Json.int n => n != 0
  | Json.str s => s ≠ ""
  | Json.arr es => !es.isEmpty
  | Json.obj fs => !fs.isEmpty

/-- Python `lst[:k]`: for `k ≥ 0` the first `k` elements, for `k < 0` all
but the last `-k` elements (clamped at zero). -/
def pySliceTo {α : Type} (xs : List α) (k : Int) : List α :=
  if 0 ≤ k then xs.take k.toNat else xs.take ((xs.length : Int) + k).toNat

/-- The validated `SinceId` field of `PagedFeeds` (schemas.py):
`Union[int, str]`. -/
inductive Cursor where
  | i : Int → Cursor
  | s : String → Cursor
deriving DecidableEq

/-- Python truthiness of a validated cursor value (`if not sinceId`). -/
def cursorTruthy (c : Cursor) : Bool :=
  match c with
  | Cursor.i n => n != 0
  | Cursor.s s => s ≠ ""

/-- `class PagedFeeds(BaseModel)` from schemas.py:
`SinceId: Union[int, str]`, `Feeds: list[dict]`. -/
structure PagedFeeds where
  SinceId : Cursor
  Feeds : List Json

/-- pydantic validation of `SinceId: Union[int, str]`: an int or a str is
accepted, `None` (and any other shape) raises ValidationError. -/
def validateSinceId (v : Json) : Except PyError Cursor :=
  match v with
  | Json.int n => Except.ok (Cursor.i n)
  | Json.str s => Except.ok (Cursor.s s)
  | _ => Except.error PyError.validationError

/-- Whether a JSON value is a dict. -/
def isObj (j : Json) : Bool :=
  match j with
  | Json.obj _ => true
  | _ => false

/-- pydantic validation of `Feeds: list[dict]`: a list all of whose elements
are dicts; anything else raises ValidationError. -/
def validateFeedsList (v : Json) : Except PyError (List Json) :=
  match v with
  | Json.arr es => if es.all isObj then Except.ok es else Except.error PyError.validationError
  | _ => Except.error PyError.validationError

/-- `PagedFeeds(SinceId=sinceVal, Feeds=feedsVal)`: pydantic validates both
fields, raising ValidationError when either fails. -/
def mkPagedFeeds (sinceVal feedsVal : Json) : Except PyError PagedFeeds :=
  match validateSinceId sinceVal with
  | Except.error e => Except.error e
  | Except.ok sid =>
    match validateFeedsList feedsVal with
    | Except.error e => Except.error e
    | Except.ok fs => Except.ok (PagedFeeds.mk sid fs)

/-- `class SearchResult(BaseModel)` from schemas.py. -/
structure SearchResult where
  id : Int
  nickName : String
  avatarHD : String
  description : String
deriving DecidableEq

/-- `SearchResult(id=..., nickName=..., avatarHD=..., description=...)`:
pydantic requires an int id and string text fields. -/
def mkSearchResult (i n a d : Json) : Except PyError SearchResult :=
  match i, n, a, d with
  | Json.int iv, Json.str nv, Json.str av, Json.str dv =>
    Except.ok (SearchResult.mk iv nv av dv)
  | _, _, _, _ => Except.error PyError.validationError

/-- The `try ... except httpx.HTTPError: <fallback>` pattern of weibo.py:
only `httpError` is handled; every other exception propagates.  The
fallback itself may raise (it runs inside the except block). -/
def catchHttpError {α : Type} (body fallback : Except PyError α) : Except PyError α :=
  match body with
  | Except.error PyError.httpError => fallback
  | r => r

/-- Body of the `try` block of `WeiboCrawler.extract_weibo_profile`:
`result = response.json(); return result["data"]["userInfo"]`. -/
def profileBody (resp : Resp) : Except PyError Json :=
  match resp with
  | Resp.transportErr => Except.error PyError.httpError
  | Resp.badJson => Except.error PyError.jsonDecodeError
  | Resp.ok j =>
    match pyIndex j "data" with
    | Except.error e => Except.error e
    | Except.ok d => pyIndex d "userInfo"

/-- `WeiboCrawler.extract_weibo_profile`: on `httpx.HTTPError` it logs and
returns the empty dict; every other exception propagates. -/
def extract_weibo_profile (resp : Resp) : Except PyError Json :=
  catchHttpError (profileBody resp) (Except.ok (Json.obj []))

/-- `WeiboCrawler._to_search_result`: reads the four source fields in order
and constructs a `SearchResult`. -/
def toSearchResult (user : Json) : Except PyError SearchResult :=
  match pyIndex user "id" with
  | Except.error e => Except.error e
  | Except.ok i =>
    match pyIndex user "screen_name" with
    | Except.error e => Except.error e
    | Except.ok n =>
      match pyIndex user "avatar_hd" with
      | Except.error e => Except.error e
      | Except.ok a =>
        match pyIndex user "description" with
        | Except.error e => Except.error e
        | Except.ok d => mkSearchResult i n a d

/-- The list comprehension
`[self._to_search_result(item["user"]) for item in cardGroup]`:
every item is converted before any slicing happens, and the first failing
item aborts the whole comprehension. -/
def mapToSearchResults (items : List Json) : Except PyError (List SearchResult) :=
  match items with
  | [] => Except.ok []
  | item :: rest =>
    match pyIndex item "user" with
    | Except.error e => Except.error e
    | Except.ok u =>
      match toSearchResult u with
      | Except.error e => Except.error e
      | Except.ok r =>
        match mapToSearchResults rest with
        | Except.error e => Except.error e
        | Except.ok rs => Except.ok (r :: rs)

/-- Body of the `try` block of `WeiboCrawler.search_weibo_users`:
`cards = result["data"]["cards"]; if len(cards) < 2: return []` else map the
second card's `card_group` and slice to `limit`. -/
def searchBody (resp : Resp) (limit : Int) : Except PyError (List SearchResult) :=
  match resp with
  | Resp.transportErr => Except.error PyError.httpError
  | Resp.badJson => Except.error PyError.jsonDecodeError
  | Resp.ok j =>
    match pyIndex j "data" with
    | Except.error e => Except.error e
    | Except.ok d =>
      match pyIndex d "cards" with
      | Except.error e => Except.error e
      | Except.ok cards =>
        match pyLen cards with
        | Except.error e => Except.error e
        | Except.ok n =>
          if n < 2 then Except.ok []
          else
            match pyIndexNat cards 1 with
            | Except.error e => Except.error e
            | Except.ok c1 =>
              match pyIndex c1 "card_group" with
              | Except.error e => Except.error e
              | Except.ok cg =>
                match pyIterate cg with
                | Except.error e => Except.error e
                | Except.ok items =>
                  match mapToSearchResults items with
                  | Except.error e => Except.error e
                  | Except.ok results => Except.ok (pySliceTo results limit)

/-- `WeiboCrawler.search_weibo_users`: on `httpx.HTTPError` it logs and
returns the empty list; every other exception propagates. -/
def search_weibo_users (resp : Resp) (limit : Int) : Except PyError (List SearchResult) :=
  catchHttpError (searchBody resp limit) (Except.ok [])

/-- The `for tab in tabs_info` loop of `WeiboCrawler._get_container_id`:
return `tab.get("containerid")` for the first tab whose `tabKey` equals
`"weibo"`; falling off the loop returns `None`. -/
def findWeiboTab (tabs : List Json) : Except PyError (Option Json) :=
  match tabs with
  | [] => Except.ok none
  | tab :: rest =>
    match pyGet tab "tabKey" Json.null with
    | Except.error e => Except.error e
    | Except.ok key =>
      match key with
      | Json.str s =>
        if s = "weibo" then
          match pyGet tab "containerid" Json.null with
          | Except.error e => Except.error e
          | Except.ok cid => Except.ok (some cid)
        else findWeiboTab rest
      | _ => findWeiboTab rest

/-- Body of the `try` block of `WeiboCrawler._get_container_id`:
`tabs_info = data.get("data", \x7b\x7d).get("tabsInfo", \x7b\x7d).get("tabs", [])`
followed by the tab scan. -/
def containerBody (resp : Resp) : Except PyError (Option Json) :=
  match resp with
  | Resp.transportErr => Except.error PyError.httpError
  | Resp.badJson => Except.error PyError.jsonDecodeError
  | Resp.ok data =>
    match pyGet data "data" (Json.obj []) with
    | Except.error e => Except.error e
    | Except.ok d =>
      match pyGet d "tabsInfo" (Json.obj []) with
      | Except.error e => Except.error e
      | Except.ok ti =>
        match pyGet ti "tabs" (Json.arr []) with
        | Except.error e => Except.error e
        | Except.ok tabs =>
          match pyIterate tabs with
          | Except.error e => Except.error e
          | Except.ok items => findWeiboTab items

/-- `WeiboCrawler._get_container_id`: on `httpx.HTTPError` it logs and
returns `None`; every other exception propagates. -/
def get_container_id (resp : Resp) : Except PyError (Option Json) :=
  catchHttpError (containerBody resp) (Except.ok none)

/-- `WeiboCrawler._extract_feeds` for one page response: extract
`data.cardlistInfo.since_id` (default `""`) and `data.cards` (default `[]`),
then build `PagedFeeds(SinceId=new_since_id, Feeds=mblogs or [])`.  The
`except httpx.HTTPError` handler runs `PagedFeeds(SinceId=None, Feeds=[])`,
whose `None` fails the `Union[int, str]` validation of `SinceId`. -/
def extractFeedsBody (resp : Resp) : Except PyError PagedFeeds :=
  match resp with
  | Resp.transportErr => Except.error PyError.httpError
  | Resp.badJson => Except.error PyError.jsonDecodeError
  | Resp.ok data =>
    match pyGet data "data" (Json.obj []) with
    | Except.error e => Except.error e
    | Except.ok d1 =>
      match pyGet d1 "cardlistInfo" (Json.obj []) with
      | Except.error e => Except.error e
      | Except.ok cli =>
        match pyGet cli "since_id" (Json.str "") with
        | Except.error e => Except.error e
        | Except.ok newSinceId =>
          match pyGet d1 "cards" (Json.arr []) with
          | Except.error e => Except.error e
          | Except.ok cards =>
            if pyTruthy cards then mkPagedFeeds newSinceId cards
            else mkPagedFeeds newSinceId (Json.arr [])

/-- `WeiboCrawler._extract_feeds`: the except handler itself raises, because
`PagedFeeds(SinceId=None, Feeds=[])` fails pydantic validation. -/
def extract_feeds (resp : Resp) : Except PyError PagedFeeds :=
  catchHttpError (extractFeedsBody resp) (mkPagedFeeds Json.null (Json.arr []))

/-- The `while len(feeds) < limit` loop of
`WeiboCrawler.extract_weibo_feeds`, with explicit fuel.  `oracle i c` is the
upstream response to the i-th page fetch issued with cursor `c`.  The Nat in
the result counts page fetches performed.  `none` means the fuel ran out
while the loop was still running. -/
def feedsLoop (oracle : Nat → Cursor → Resp) (limit : Int) :
    Nat → List Json → Cursor → Nat → Option (Except PyError (List Json × Nat))
  | 0, feeds, _, count =>
    if (feeds.length : Int) < limit then none
    else some (Except.ok (feeds, count))
  | fuel + 1, feeds, sinceId, count =>
    if (feeds.length : Int) < limit then
      match extract_feeds (oracle count sinceId) with
      | Except.error e => some (Except.error e)
      | Except.ok page =>
        if page.Feeds.isEmpty then some (Except.ok (feeds, count + 1))
        else
          if cursorTruthy page.SinceId then
            feedsLoop oracle limit fuel (feeds ++ page.Feeds) page.SinceId (count + 1)
          else some (Except.ok (feeds ++ page.Feeds, count + 1))
    else some (Except.ok (feeds, count))

/-- `WeiboCrawler.extract_weibo_feeds`: resolve the container id once (its
raised exceptions propagate), then run the pagination loop from
`feeds = []`, `sinceId = ""`.  The resolved container id is constant for the
traversal, so the page oracle is implicitly scoped to it. -/
def extract_weibo_feeds (profileResp : Resp) (oracle : Nat → Cursor → Resp)
    (limit : Int) (fuel : Nat) : Option (Except PyError (List Json × Nat)) :=
  match get_container_id profileResp with
  | Except.error e => some (Except.error e)
  | Except.ok _ => feedsLoop oracle limit fuel [] (Cursor.s "") 0

/-! Concrete upstream behaviors used by scenario theorems and witnesses. -/

/-- A distinguishable feed entry (an opaque dict, as the engine treats it). -/
def seqEntry (n : Nat) : Json := Json.obj [("seq", Json.int (Int.ofNat n))]

/-- Feed-page response number `k` (zero-based): ten entries and the next
cursor `k + 1` as an integer since-id. -/
def pageJson (k : Nat) : Json :=
  Json.obj [("data", Json.obj
    [("cardlistInfo", Json.obj [("since_id", Json.int (Int.ofNat (k + 1)))]),
     ("cards", Json.arr ((List.range 10).map (fun i => seqEntry (10 * k + i))))])]

/-- An end-of-feed page response: no entries, empty-string since-id. -/
def emptyPageJson : Json :=
  Json.obj [("data", Json.obj
    [("cardlistInfo", Json.obj [("since_id", Json.str "")]),
     ("cards", Json.arr [])])]

/-- A profile response whose tab list carries a weibo tab, so container-id
resolution succeeds. -/
def goodProfileJson : Json :=
  Json.obj [("data", Json.obj [("tabsInfo", Json.obj [("tabs", Json.arr
    [Json.obj [("tabKey", Json.str "weibo"), ("containerid", Json.str "107603")]])])])]

/-- The profile response above as a transport outcome. -/
def goodProfileResp : Resp := Resp.ok goodProfileJson

/-- The upstream of the pagination scenario: pages of ten entries with
successive nonempty integer cursors; five pages available, empty afterwards. -/
def c4Oracle (_i : Nat) (c : Cursor) : Resp :=
  match c with
  | Cursor.s _ => Resp.ok (pageJson 0)
  | Cursor.i k =>
    if 1 ≤ k ∧ k ≤ 4 then Resp.ok (pageJson k.toNat) else Resp.ok emptyPageJson

/-- A raw user record with all four fields the search mapper reads. -/
def userJson (k : Nat) : Json :=
  Json.obj [("id", Json.int (Int.ofNat k)), ("screen_name", Json.str "u"),
            ("avatar_hd", Json.str "a"), ("description", Json.str "d")]

/-- A search response whose card list has two cards, the second card
grouping two well-formed user records. -/
def searchJsonTwoUsers : Json :=
  Json.obj [("data", Json.obj [("cards", Json.arr
    [Json.obj [],
     Json.obj [("card_group", Json.arr
       [Json.obj [("user", userJson 1)], Json.obj [("user", userJson 2)]])]])])]

/-- A search response whose card list holds a single card. -/
def searchJsonOneCard : Json :=
  Json.obj [("data", Json.obj [("cards", Json.arr [Json.obj []])])]

/-- A feed-page response with an empty entry list but a truthy integer
cursor 7. -/
def stopPage7Json : Json :=
  Json.obj [("data", Json.obj
    [("cardlistInfo", Json.obj [("since_id", Json.int 7)]),
     ("cards", Json.arr [])])]

/-- A feed-page response with one entry and the empty-string cursor. -/
def singlePageJson : Json :=
  Json.obj [("data", Json.obj
    [("cardlistInfo", Json.obj [("since_id", Json.str "")]),
     ("cards", Json.arr [seqEntry 0])])]

/-- A feed-page response with one entry and the integer cursor 0. -/
def zeroCursorPageJson : Json :=
  Json.obj [("data", Json.obj
    [("cardlistInfo", Json.obj [("since_id", Json.int 0)]),
     ("cards", Json.arr [seqEntry 0])])]

/-! Helper lemmas shared between claims. -/

/-- Slicing to a nonnegative bound returns at most that many elements. -/
theorem pySliceTo_length {α : Type} (xs : List α) (k : Int) (hk : 0 ≤ k) :
    ((pySliceTo xs k).length : Int) ≤ k := by
  simp only [pySliceTo, if_pos hk, List.length_take]
  omega

/-- The pagination loop finishes within any fuel that exceeds the gap
between `limit` and the accumulated length, because every continued
iteration appends a nonempty page. -/
theorem feedsLoop_ne_none (oracle : Nat → Cursor → Resp) (limit : Int) :
    ∀ (fuel : Nat) (feeds : List Json) (c : Cursor) (n : Nat),
      limit < (feeds.length : Int) + (fuel : Int) →
      feedsLoop oracle limit fuel feeds c n ≠ none := by
  intro fuel
  induction fuel with
  | zero =>
    intro feeds c n h
    simp only [feedsLoop]
    rw [if_neg (by omega)]
    simp
  | succ m ih =>
    intro feeds c n h
    simp only [feedsLoop]
    by_cases hcond : (feeds.length : Int) < limit
    · rw [if_pos hcond]
      cases hpage : extract_feeds (oracle n c) with
      | error e => simp
      | ok page =>
        by_cases hemp : page.Feeds.isEmpty
        · simp [hemp]
        · have hlen : 0 < page.Feeds.length := by
            cases hfe : page.Feeds with
            | nil => rw [hfe] at hemp; simp at hemp
            | cons a l => simp
          by_cases hcur : cursorTruthy page.SinceId
          · simp only [hemp, hcur, Bool.false_eq_true, if_false, if_true]
            apply ih
            rw [List.length_append]
            push_cast
            omega
          · simp [hemp, hcur]
    · rw [if_neg hcond]
      simp

/-- Every successful run of the search body returns at most `limit` results
when `limit` is nonnegative. -/
theorem searchBody_ok_length (resp : Resp) (limit : Int) (out : List SearchResult)
    (hl : 0 ≤ limit) (h : searchBody resp limit = Except.ok out) :
    (out.length : Int) ≤ limit := by
  unfold searchBody at h
  repeat' split at h
  all_goals simp_all
  exact h ▸ pySliceTo_length _ _ hl

/-- C1: the claim that the three public operations never raise is false on
the code: `except httpx.HTTPError` does not catch `json.JSONDecodeError`
(malformed body) or `KeyError` (structurally valid JSON lacking the
expected fields), so these exceptions reach the caller.  Evaluations at the
failing inputs: a profile response whose JSON is the empty object raises
KeyError("data"); the same search response raises KeyError("data"); a
malformed profile body makes both profile extraction and feed traversal
raise JSONDecodeError. -/
theorem C1_operations_raise :
    extract_weibo_profile (Resp.ok (Json.obj [])) = Except.error (PyError.keyError "data")
  ∧ search_weibo_users (Resp.ok (Json.obj [])) 10 = Except.error (PyError.keyError "data")
  ∧ extract_weibo_profile Resp.badJson = Except.error PyError.jsonDecodeError
  ∧ extract_weibo_feeds Resp.badJson c4Oracle 10 11 = some (Except.error PyError.jsonDecodeError) :=
  ⟨rfl, rfl, rfl, rfl⟩

/-- C2: the claim that `_extract_feeds` returns an empty page on every
transport or parse failure is false on the code: the except handler builds
`PagedFeeds(SinceId=None, Feeds=[])`, which pydantic rejects (None does not
satisfy `Union[int, str]`), and a malformed body raises
`json.JSONDecodeError`, which `except httpx.HTTPError` does not catch.
Both failure modes therefore raise instead of returning a page. -/
theorem C2_page_failure_raises :
    extract_feeds Resp.transportErr = Except.error PyError.validationError
  ∧ extract_feeds Resp.badJson = Except.error PyError.jsonDecodeError :=
  ⟨rfl, rfl⟩

/-- C3, counterexample: no upstream behavior at all (in particular not the
repeating-cursor one) makes `extract_weibo_feeds` run forever for a finite
limit, refuting the claim that such an upstream exists. -/
theorem C3_counterexample :
    ¬ ∃ (profileResp : Resp) (oracle : Nat → Cursor → Resp) (limit : Int),
        ∀ fuel : Nat, extract_weibo_feeds profileResp oracle limit fuel = none := by
  rintro ⟨p, o, limit, h⟩
  have h1 := h (limit.natAbs + 1)
  unfold extract_weibo_feeds at h1
  cases hc : get_container_id p with
  | error e => rw [hc] at h1; simp at h1
  | ok cid =>
    rw [hc] at h1
    exact feedsLoop_ne_none o limit (limit.natAbs + 1) [] (Cursor.s "") 0
      (by omega) h1

/-- C3, amended: the empty-page and empty-cursor checks are not the only
termination guards; the loop condition `len(feeds) < limit` also bounds the
iteration count, because every continued iteration appends a nonempty page.
The traversal therefore finishes (returning or raising) within
`natAbs limit + 1` iterations for every upstream behavior and every finite
limit. -/
theorem C3_amended (profileResp : Resp) (oracle : Nat → Cursor → Resp) (limit : Int) :
    extract_weibo_feeds profileResp oracle limit (limit.natAbs + 1) ≠ none := by
  unfold extract_weibo_feeds
  cases hc : get_container_id profileResp with
  | error e => simp
  | ok cid =>
    exact feedsLoop_ne_none oracle limit (limit.natAbs + 1) [] (Cursor.s "") 0
      (by omega)

/-- C4: with pages of ten entries and successive nonempty cursors, five
pages available, `limit = 25`: traversal performs exactly three page
fetches and returns all thirty entries of the first three pages in order
(the accumulator is never truncated mid-page). -/
theorem C4_scenario :
    extract_weibo_feeds goodProfileResp c4Oracle 25 26
      = some (Except.ok ((List.range 30).map seqEntry, 3))
  ∧ ((List.range 30).map seqEntry).length = 30 :=
  ⟨rfl, rfl⟩

/-- C5, counterexample: the claim quantifies over every limit, but Python
slicing makes a negative limit return more than `limit` results: with a
well-formed two-user response and `limit = -1`, the slice `[:-1]` keeps one
result, and one is not at most minus one. -/
theorem C5_counterexample :
    search_weibo_users (Resp.ok searchJsonTwoUsers) (-1)
      = Except.ok [SearchResult.mk 1 "u" "a" "d"]
  ∧ ¬ (([SearchResult.mk 1 "u" "a" "d"].length : Int) ≤ -1) :=
  ⟨rfl, by decide⟩

/-- C5, amended: for every NONNEGATIVE limit, `search_weibo_users` returns
at most `limit` results whenever it returns at all; and for every limit,
whenever the response card list holds fewer than two entries the result is
the empty sequence. -/
theorem C5_amended :
    (∀ (resp : Resp) (limit : Int) (out : List SearchResult),
        0 ≤ limit → search_weibo_users resp limit = Except.ok out →
        (out.length : Int) ≤ limit)
  ∧ (∀ (j d : Json) (cards : List Json) (limit : Int),
        pyIndex j "data" = Except.ok d →
        pyIndex d "cards" = Except.ok (Json.arr cards) →
        cards.length < 2 →
        search_weibo_users (Resp.ok j) limit = Except.ok []) := by
  constructor
  · intro resp limit out hl h
    unfold search_weibo_users catchHttpError at h
    split at h
    · cases h
      simpa using hl
    · exact searchBody_ok_length resp limit out hl h
  · intro j d cards limit h1 h2 hlt
    have hb : searchBody (Resp.ok j) limit = Except.ok [] := by
      simp [searchBody, h1, h2, pyLen, hlt]
    unfold search_weibo_users catchHttpError
    rw [hb]

/-- C5, witness for the amended claim at concrete inputs. -/
theorem C5_witness :
    (([SearchResult.mk 1 "u" "a" "d"].length : Int) ≤ 1)
  ∧ search_weibo_users (Resp.ok searchJsonOneCard) 7 = Except.ok [] :=
  ⟨C5_amended.1 (Resp.ok searchJsonTwoUsers) 1 [SearchResult.mk 1 "u" "a" "d"]
      (by decide) rfl,
   C5_amended.2 searchJsonOneCard
      (Json.obj [("cards", Json.arr [Json.obj []])]) [Json.obj []] 7 rfl rfl
      (by decide)⟩

/-- C6: for every limit at most zero, whenever container resolution itself
returns (its own raised exceptions are the C1 defect, not this claim), the
traversal returns the empty sequence having performed zero page fetches,
for any fuel: the loop condition fails before the first fetch.  The single
container-id request is the consumption of `profileResp`. -/
theorem C6_nonpositive_limit (profileResp : Resp) (oracle : Nat → Cursor → Resp)
    (limit : Int) (fuel : Nat) (cid : Option Json)
    (hl : limit ≤ 0)
    (hc : get_container_id profileResp = Except.ok cid) :
    extract_weibo_feeds profileResp oracle limit fuel
      = some (Except.ok ([], 0)) := by
  unfold extract_weibo_feeds
  rw [hc]
  cases fuel with
  | zero =>
    simp only [feedsLoop]
    rw [if_neg (by simp; omega)]
  | succ m =>
    simp only [feedsLoop]
    rw [if_neg (by simp; omega)]

/-- C6, witness: limit zero against the five-page upstream performs no page
fetch and returns nothing. -/
theorem C6_witness :
    extract_weibo_feeds goodProfileResp c4Oracle 0 5 = some (Except.ok ([], 0)) :=
  C6_nonpositive_limit goodProfileResp c4Oracle 0 5 (some (Json.str "107603"))
    (by decide) rfl

/-- C7: the claim that `extract_weibo_profile` returns the empty map both
on transport failure and on a response lacking `data.userInfo` is half
false on the code: the transport-failure half holds, but a structurally
valid response without the field raises KeyError("userInfo"), because
`except httpx.HTTPError` does not catch KeyError. -/
theorem C7_profile_failure :
    extract_weibo_profile Resp.transportErr = Except.ok (Json.obj [])
  ∧ extract_weibo_profile (Resp.ok (Json.obj [("data", Json.obj [])]))
      = Except.error (PyError.keyError "userInfo") :=
  ⟨rfl, rfl⟩

/-- C8: loop invariant: whenever the page fetched in an iteration has an
empty entry list, traversal stops there with exactly that one extra fetch,
whatever cursor the page carries; the accumulated entries are returned and
the cursor of the empty page is never consumed. -/
theorem C8_empty_page_stops (oracle : Nat → Cursor → Resp) (limit : Int)
    (fuel : Nat) (feeds : List Json) (sinceId : Cursor) (count : Nat)
    (page : PagedFeeds)
    (hl : (feeds.length : Int) < limit)
    (hp : extract_feeds (oracle count sinceId) = Except.ok page)
    (he : page.Feeds = []) :
    feedsLoop oracle limit (fuel + 1) feeds sinceId count
      = some (Except.ok (feeds, count + 1)) := by
  simp only [feedsLoop]
  rw [if_pos hl, hp]
  simp [he]

/-- C8, witness: an empty page carrying the truthy integer cursor 7 still
stops the loop after one fetch. -/
theorem C8_witness :
    feedsLoop (fun _ _ => Resp.ok stopPage7Json) 5 1 [] (Cursor.s "") 0
      = some (Except.ok ([], 1)) :=
  C8_empty_page_stops (fun _ _ => Resp.ok stopPage7Json) 5 0 [] (Cursor.s "") 0
    (PagedFeeds.mk (Cursor.i 7) []) (by decide) rfl rfl

/-- C9: if container resolution returns and the first fetched page carries
a nonempty entry list together with the empty-string cursor, the traversal
returns exactly that page's entries in order after exactly one page fetch. -/
theorem C9_first_page_empty_cursor (profileResp : Resp) (cid : Option Json)
    (oracle : Nat → Cursor → Resp) (limit : Int) (entries : List Json) (fuel : Nat)
    (hc : get_container_id profileResp = Except.ok cid)
    (hl : 0 < limit)
    (hp : extract_feeds (oracle 0 (Cursor.s ""))
            = Except.ok (PagedFeeds.mk (Cursor.s "") entries))
    (hne : entries ≠ []) :
    extract_weibo_feeds profileResp oracle limit (fuel + 1)
      = some (Except.ok (entries, 1)) := by
  cases entries with
  | nil => exact absurd rfl hne
  | cons a l =>
    unfold extract_weibo_feeds
    rw [hc]
    simp only [feedsLoop]
    rw [if_pos (by simp; omega), hp]
    simp [cursorTruthy]

/-- C9, witness: a single one-entry page with the empty-string cursor. -/
theorem C9_witness :
    extract_weibo_feeds goodProfileResp (fun _ _ => Resp.ok singlePageJson) 10 1
      = some (Except.ok ([seqEntry 0], 1)) :=
  C9_first_page_empty_cursor goodProfileResp (some (Json.str "107603"))
    (fun _ _ => Resp.ok singlePageJson) 10 [seqEntry 0] 0 rfl (by decide) rfl
    (by simp)

/-- C10: because the stop test is Python falsiness of the `Union[int, str]`
cursor, a nonempty first page carrying the INTEGER cursor 0 stops traversal
after that page exactly as the empty string does: its entries are returned
after a single page fetch and no further fetch occurs. -/
theorem C10_zero_cursor_stops (profileResp : Resp) (cid : Option Json)
    (oracle : Nat → Cursor → Resp) (limit : Int) (entries : List Json) (fuel : Nat)
    (hc : get_container_id profileResp = Except.ok cid)
    (hl : 0 < limit)
    (hp : extract_feeds (oracle 0 (Cursor.s ""))
            = Except.ok (PagedFeeds.mk (Cursor.i 0) entries))
    (hne : entries ≠ []) :
    extract_weibo_feeds profileResp oracle limit (fuel + 1)
      = some (Except.ok (entries, 1)) := by
  cases entries with
  | nil => exact absurd rfl hne
  | cons a l =>
    unfold extract_weibo_feeds
    rw [hc]
    simp only [feedsLoop]
    rw [if_pos (by simp; omega), hp]
    simp [cursorTruthy]

/-- C10, witness: a one-entry page with integer since-id 0 ends traversal
after one fetch. -/
theorem C10_witness :
    extract_weibo_feeds goodProfileResp (fun _ _ => Resp.ok zeroCursorPageJson) 10 1
      = some (Except.ok ([seqEntry 0], 1)) :=
  C10_zero_cursor_stops goodProfileResp (some (Json.str "107603"))
    (fun _ _ => Resp.ok zeroCursorPageJson) 10 [seqEntry 0] 0 rfl (by decide) rfl
    (by simp)
